import Mathlib

/-!
Verification of the recurrence & reminder engine of the todo application.

The definitions below are shallow embeddings of the TypeScript source:
* `calculateNextDueDate` / `calculateNextOccurrences` embed
  `src/lib/recurrence.ts` (date-fns `addDays` / `addWeeks` / `addMonths` /
  `addYears` calendar arithmetic on civil Singapore time);
* `passesReminderFilter` / `checkReminders` embed the filter/map pipeline of
  `GET /api/notifications/check`;
* `createRecurringInstance` and `putUpdateCompletion` embed
  `todoDB.createRecurringInstance` and the completion branch of
  `PUT /api/todos/[id]`;
* `postReminderValidationOk` / `validateReminderMinutes` embed the
  reminder-minutes validation of `POST /api/todos` and the (uncalled)
  helper in the db module.
-/

namespace ToDoApp

/-! ## Civil date-time model (fixed Singapore civil zone) -/

/-- A civil (wall-clock) date-time in the application's fixed timezone. -/
structure CivilDateTime where
  year : Nat
  month : Nat
  day : Nat
  hour : Nat
  minute : Nat
deriving DecidableEq, Repr

/-- Gregorian leap-year rule. -/
def isLeapYear (y : Nat) : Bool :=
  (y % 4 == 0 && y % 100 != 0) || (y % 400 == 0)

/-- Number of days in the given month of the given year. -/
def daysInMonth (y m : Nat) : Nat :=
  match m with
  | 1 => 31
  | 2 => if isLeapYear y then 29 else 28
  | 3 => 31
  | 4 => 30
  | 5 => 31
  | 6 => 30
  | 7 => 31
  | 8 => 31
  | 9 => 30
  | 10 => 31
  | 11 => 30
  | 12 => 31
  | _ => 0

/-- A structurally valid calendar date-time. -/
def CivilDateTime.ValidDate (d : CivilDateTime) : Prop :=
  1 ≤ d.month ∧ d.month ≤ 12 ∧ 1 ≤ d.day ∧ d.day ≤ daysInMonth d.year d.month

instance (d : CivilDateTime) : Decidable d.ValidDate := by
  unfold CivilDateTime.ValidDate; infer_instance

/-- The calendar successor day (time-of-day untouched). -/
def nextCivilDay (d : CivilDateTime) : CivilDateTime :=
  if d.day < daysInMonth d.year d.month then
    { d with day := d.day + 1 }
  else if d.month < 12 then
    { d with month := d.month + 1, day := 1 }
  else
    { d with year := d.year + 1, month := 1, day := 1 }

/-- date-fns `addDays`: advance `n` calendar days, preserving time-of-day. -/
def addDaysCivil (d : CivilDateTime) (n : Nat) : CivilDateTime :=
  nextCivilDay^[n] d

/-- date-fns `addMonths`: advance `n` calendar months; the day-of-month is
clamped to the last valid day of the target month; time-of-day preserved. -/
def addMonthsCivil (d : CivilDateTime) (n : Nat) : CivilDateTime :=
  let m0 := d.month - 1 + n
  let y := d.year + m0 / 12
  let m := m0 % 12 + 1
  { d with year := y, month := m, day := min d.day (daysInMonth y m) }

/-- The four valid recurrence patterns (`RecurrencePattern` in `db.ts`). -/
inductive RecurrencePattern where
  | daily
  | weekly
  | monthly
  | yearly
deriving DecidableEq, Repr

/-- Runtime value reaching the `switch (pattern)` of `calculateNextDueDate`:
a valid pattern string, `null`, or any other unrecognized string. -/
inductive PatternInput where
  | pat (p : RecurrencePattern)
  | nullInput
  | unrecognized (s : String)
deriving DecidableEq, Repr

/-- String interpolation of the pattern value into the error message. -/
def PatternInput.render : PatternInput → String
  | .pat .daily => "daily"
  | .pat .weekly => "weekly"
  | .pat .monthly => "monthly"
  | .pat .yearly => "yearly"
  | .nullInput => "null"
  | .unrecognized s => s

/-- The four `case` branches of `calculateNextDueDate` for valid patterns:
daily = addDays 1, weekly = addWeeks 1 = addDays 7, monthly = addMonths 1,
yearly = addYears 1 = addMonths 12. -/
def nextDueDateTotal (d : CivilDateTime) : RecurrencePattern → CivilDateTime
  | .daily => addDaysCivil d 1
  | .weekly => addDaysCivil d 7
  | .monthly => addMonthsCivil d 1
  | .yearly => addMonthsCivil d 12

/-- Embedding of `calculateNextDueDate` from `src/lib/recurrence.ts`: switch on the
pattern, `default:` throws `Invalid recurrence pattern: ...`. -/
def calculateNextDueDate (d : CivilDateTime) : PatternInput → Except String CivilDateTime
  | .pat p => .ok (nextDueDateTotal d p)
  | other => .error ("Invalid recurrence pattern: " ++ other.render)

/-- Loop body of `calculateNextOccurrences`: `count - 1` iterated applications
of `calculateNextDueDate`, each result pushed onto the list. -/
def occurrencesLoop (p : RecurrencePattern) : Nat → CivilDateTime → List CivilDateTime
  | 0, _ => []
  | n + 1, cur =>
    let nxt := nextDueDateTotal cur p
    nxt :: occurrencesLoop p n nxt

/-- Embedding of `calculateNextOccurrences` from `src/lib/recurrence.ts`: starts from
`[startDate]` and appends `count - 1` successive next due dates. -/
def calculateNextOccurrences (startDate : CivilDateTime) (p : RecurrencePattern)
    (count : Nat) : List CivilDateTime :=
  startDate :: occurrencesLoop p (count - 1) startDate

/-! ## Reminder window evaluator (GET /api/notifications/check) -/

/-- A todo as seen by the notification-check route; instants are integer
milliseconds since the epoch (`Date.getTime()` values). -/
structure RTodo where
  id : Nat
  completed : Bool
  reminder_minutes : Option Int
  due_date : Int
  last_notification_sent : Option Int
deriving DecidableEq, Repr

/-- JavaScript `Math.round((dueTime - now) / 60000)`: floor of the exact
ratio plus one half, computed on integers. -/
def jsRoundMinutes (diffMs : Int) : Int :=
  Int.fdiv (2 * diffMs + 60000) 120000

/-- The filter body of the reminders pipeline: completed todos and todos
without reminders are skipped (`!todo.reminder_minutes` also skips 0),
then the half-open window test `now >= reminderTime && now < dueTime`,
then the 5-minute de-duplication guard on `last_notification_sent`. -/
def passesReminderFilter (now : Int) (t : RTodo) : Bool :=
  if t.completed then false
  else
    match t.reminder_minutes with
    | none => false
    | some r =>
      if r = 0 then false
      else
        let reminderTime := t.due_date - r * 60000
        if ¬(reminderTime ≤ now ∧ now < t.due_date) then false
        else
          match t.last_notification_sent with
          | none => true
          | some lastSent => if now - lastSent < 5 * 60000 then false else true

/-- An element of the `reminders` array returned by the route. -/
structure ReminderEntry where
  todo : RTodo
  minutesUntilDue : Int
deriving DecidableEq, Repr

/-- The reminders computation of `GET /api/notifications/check`:
filter by `passesReminderFilter`, then map to `{todo, minutesUntilDue}`. -/
def checkReminders (now : Int) (todos : List RTodo) : List ReminderEntry :=
  (todos.filter (passesReminderFilter now)).map
    (fun t => ⟨t, jsRoundMinutes (t.due_date - now)⟩)

/-! ## Store model (db.ts: todoDB / subtaskDB / todo_tags) -/

/-- Todo priority values. -/
inductive Priority where
  | high
  | medium
  | low
deriving DecidableEq, Repr

/-- A row of the `todos` table (due dates kept as civil date-times, the
form in which the recurrence calculator reads them). -/
structure DTodo where
  id : Nat
  user_id : Nat
  title : String
  due_date : CivilDateTime
  priority : Priority
  completed : Bool
  completed_at : Option CivilDateTime
  recurrence_pattern : Option RecurrencePattern
  reminder_minutes : Option Int
  last_notification_sent : Option CivilDateTime
deriving DecidableEq, Repr

/-- A row of the `subtasks` table. -/
structure DSubtask where
  id : Nat
  todo_id : Nat
  title : String
  completed : Bool
  position : Int
deriving DecidableEq, Repr

/-- The persistent store: `todos`, `subtasks`, the `todo_tags` association
pairs (todo id, tag id), and the autoincrement counters. -/
structure DBState where
  todos : List DTodo
  subtasks : List DSubtask
  todo_tags : List (Nat × Nat)
  nextTodoId : Nat
  nextSubtaskId : Nat
deriving DecidableEq, Repr

/-- JavaScript `String.prototype.trim()`: strip leading and trailing
whitespace. -/
def trimString (s : String) : String :=
  ⟨((s.data.dropWhile Char.isWhitespace).reverse.dropWhile Char.isWhitespace).reverse⟩

/-- The row inserted by `todoDB.create`: title trimmed, `completed = 0`,
`completed_at`, `last_notification_sent` NULL; a falsy `reminder_minutes`
(`data.reminder_minutes || null`) is stored as NULL. -/
def mkCreatedTodo (s : DBState) (user_id : Nat) (title : String)
    (due_date : CivilDateTime) (priority : Priority)
    (recurrence_pattern : Option RecurrencePattern)
    (reminder_minutes : Option Int) : DTodo :=
  { id := s.nextTodoId
    user_id := user_id
    title := trimString title
    due_date := due_date
    priority := priority
    completed := false
    completed_at := none
    recurrence_pattern := recurrence_pattern
    reminder_minutes :=
      match reminder_minutes with
      | some r => if r = 0 then none else some r
      | none => none
    last_notification_sent := none }

/-- Embedding of `todoDB.create`: INSERT the new row, returning it. -/
def todoDB_create (s : DBState) (user_id : Nat) (title : String)
    (due_date : CivilDateTime) (priority : Priority)
    (recurrence_pattern : Option RecurrencePattern)
    (reminder_minutes : Option Int) : DBState × DTodo :=
  let t := mkCreatedTodo s user_id title due_date priority
    recurrence_pattern reminder_minutes
  ({ s with todos := s.todos ++ [t], nextTodoId := s.nextTodoId + 1 }, t)

/-- Embedding of `subtaskDB.create`: INSERT a subtask row (title trimmed,
`completed` defaults to 0), returning it. -/
def subtaskDB_create (s : DBState) (todo_id : Nat) (title : String)
    (position : Int) : DBState × DSubtask :=
  let sub : DSubtask :=
    { id := s.nextSubtaskId
      todo_id := todo_id
      title := trimString title
      completed := false
      position := position }
  ({ s with subtasks := s.subtasks ++ [sub], nextSubtaskId := s.nextSubtaskId + 1 }, sub)

/-- Embedding of `subtaskDB.findByTodo`: the subtasks of one todo, ordered by position. -/
def subtaskDB_findByTodo (s : DBState) (todo_id : Nat) : List DSubtask :=
  (s.subtasks.filter (fun sub => sub.todo_id == todo_id)).mergeSort
    (fun a b => a.position ≤ b.position)

/-- The `subtasks.forEach(subtask => subtaskDB.create(...))` copy loop of
`createRecurringInstance`. -/
def copySubtasksFold (nid : Nat) (L : List DSubtask) (st : DBState) : DBState :=
  L.foldl (fun acc sub => (subtaskDB_create acc nid sub.title sub.position).1) st

/-- Body of `todoDB.createRecurringInstance` for a recurring parent: create the
next todo from the parent's fields with the advanced due date, copy the
parent's tag associations, then copy the parent's subtasks. -/
def createRecurringInstanceCore (s : DBState) (parent : DTodo)
    (p : RecurrencePattern) : DBState × DTodo :=
  let nextDue := nextDueDateTotal parent.due_date p
  let created := todoDB_create s parent.user_id parent.title nextDue
    parent.priority (some p) parent.reminder_minutes
  let s1 := created.1
  let nextTodo := created.2
  let newTags := (s1.todo_tags.filter (fun tt => tt.1 == parent.id)).map
    (fun tt => (nextTodo.id, tt.2))
  let s2 := { s1 with todo_tags := s1.todo_tags ++ newTags }
  let s3 := copySubtasksFold nextTodo.id (subtaskDB_findByTodo s2 parent.id) s2
  (s3, nextTodo)

/-- Embedding of `todoDB.createRecurringInstance`: throws when the parent todo is not
recurring. -/
def createRecurringInstance (s : DBState) (parent : DTodo) :
    Except String (DBState × DTodo) :=
  match parent.recurrence_pattern with
  | none => .error ("Todo is not recurring")
  | some p => .ok (createRecurringInstanceCore s parent p)

/-! ## Completion updates (PUT /api/todos/[id]) -/

/-- The `todoDB.update` write performed by the PUT handler for the
completion fields: the row with the given id gets the new `completed`
flag and `completed_at` value. -/
def todoDB_updateCompletion (s : DBState) (id : Nat) (completed : Bool)
    (completed_at : Option CivilDateTime) : DBState :=
  { s with todos := s.todos.map (fun t =>
      if t.id = id then { t with completed := completed, completed_at := completed_at }
      else t) }

/-- The completion branch of `PUT /api/todos/[id]`: `isCompleting` is the
false→true transition; it stamps `completed_at` and, when the todo is
recurring, spawns the next instance; marking incomplete clears
`completed_at`; re-marking an already-completed todo leaves it as is. -/
def putUpdateCompletion (s : DBState) (todo : DTodo) (bodyCompleted : Bool)
    (now : CivilDateTime) : DBState :=
  let isCompleting := bodyCompleted && !todo.completed
  let s1 :=
    if isCompleting then
      match todo.recurrence_pattern with
      | some p => (createRecurringInstanceCore s todo p).1
      | none => s
    else s
  let newCompletedAt :=
    if isCompleting then some now
    else if bodyCompleted = false then none
    else todo.completed_at
  todoDB_updateCompletion s1 todo.id bodyCompleted newCompletedAt

/-! ## Creation-time validation (POST /api/todos) -/

/-- The fixed reminder lead-time option values exposed to the UI. -/
def reminderOptionValues : List Int := [15, 30, 60, 120, 1440, 2880, 10080]

/-- Embedding of `validateReminderMinutes` from the db module: null passes through,
values outside the fixed option set map to null, in-set values are kept.
This helper is defined in the source but never invoked by the creation
route. -/
def validateReminderMinutes : Option Int → Option Int
  | none => none
  | some m => if reminderOptionValues.contains m then some m else none

/-- The `reminder_minutes` validation of `POST /api/todos` for numeric
inputs: absent is allowed; a present value is rejected iff not positive. -/
def postReminderValidationOk : Option Int → Bool
  | none => true
  | some r => decide (0 < r)

/-- Days in all years strictly before year `y` (proleptic Gregorian). -/
def daysBeforeYear (y : Nat) : Nat :=
  365 * (y - 1) + (y - 1) / 4 - (y - 1) / 100 + (y - 1) / 400

/-- Days in the months of year `y` strictly before month `m`. -/
def daysBeforeMonth (y : Nat) : Nat → Nat
  | 0 => 0
  | 1 => 0
  | m + 1 => daysBeforeMonth y m + daysInMonth y m

/-- Minute index of a civil date-time, for chronological comparison. -/
def civilMinuteIndex (d : CivilDateTime) : Nat :=
  ((daysBeforeYear d.year + daysBeforeMonth d.year d.month + (d.day - 1)) * 24 + d.hour) * 60
    + d.minute

/-- Embedding of `isPastDate`: the given date-time is strictly before now. -/
def isPastDate (d now : CivilDateTime) : Bool :=
  civilMinuteIndex d < civilMinuteIndex now

/-- The validation-and-create path of `POST /api/todos` (numeric
`reminder_minutes` inputs; priority and recurrence arrive as already
validated enum options). Membership of `reminder_minutes` in the fixed
option set is NOT checked — only positivity. -/
def postCreateTodo (s : DBState) (now : CivilDateTime) (user_id : Nat)
    (title : String) (due_date : CivilDateTime) (priority : Option Priority)
    (recurrence_pattern : Option RecurrencePattern)
    (reminder_minutes : Option Int) : Except String (DBState × DTodo) :=
  if (trimString title).length = 0 then .error ("Title is required")
  else if 500 < (trimString title).length then .error ("Title must be 500 characters or less")
  else if isPastDate due_date now then .error ("Due date cannot be in the past")
  else if postReminderValidationOk reminder_minutes = false then
    .error ("Reminder minutes must be a positive number")
  else
    .ok (todoDB_create s user_id title due_date (priority.getD .medium)
      recurrence_pattern reminder_minutes)

/-! ## Basic facts about the calendar arithmetic -/

theorem daysInMonth_ge (y m : Nat) (h1 : 1 ≤ m) (h2 : m ≤ 12) :
    28 ≤ daysInMonth y m := by
  interval_cases m
  all_goals simp [daysInMonth]
  split <;> omega

theorem addMonthsCivil_one_spec (d : CivilDateTime) :
    (addMonthsCivil d 1).hour = d.hour ∧
    (addMonthsCivil d 1).minute = d.minute ∧
    (addMonthsCivil d 1).day
      = min d.day (daysInMonth (addMonthsCivil d 1).year (addMonthsCivil d 1).month) := by
  refine ⟨rfl, rfl, ?_⟩
  simp [addMonthsCivil]

/-! ## Claim C1: monthly calendar arithmetic clamps the month end -/

/-- C1: `nextDueDate` uses calendar arithmetic preserving time-of-day:
`nextDueDate(2026-01-31T17:00, monthly) = 2026-02-28T17:00`,
`nextDueDate(2026-02-28T17:00, monthly) = 2026-03-28T17:00`, and for every
valid date the monthly step preserves hour and minute, yields a valid
(never rolled-over) calendar date, advances by exactly one calendar month,
and clamps the day to the last valid day of the target month. -/
theorem nextDueDate_monthly_clamps :
    calculateNextDueDate ⟨2026, 1, 31, 17, 0⟩ (.pat .monthly) = .ok ⟨2026, 2, 28, 17, 0⟩ ∧
    calculateNextDueDate ⟨2026, 2, 28, 17, 0⟩ (.pat .monthly) = .ok ⟨2026, 3, 28, 17, 0⟩ ∧
    ∀ d : CivilDateTime, d.ValidDate →
      ∀ r : CivilDateTime, calculateNextDueDate d (.pat .monthly) = .ok r →
        r.hour = d.hour ∧ r.minute = d.minute ∧ r.ValidDate ∧
        r.year * 12 + (r.month - 1) = d.year * 12 + (d.month - 1) + 1 ∧
        r.day = min d.day (daysInMonth r.year r.month) := by
  refine ⟨rfl, rfl, ?_⟩
  intro d hd r hr
  obtain ⟨hm1, hm2, hd1, hd2⟩ := hd
  have hr' : r = addMonthsCivil d 1 := by
    simpa [calculateNextDueDate, nextDueDateTotal] using hr.symm
  subst hr'
  have hmm : d.month - 1 + 1 = d.month := by omega
  have hge : 28 ≤ daysInMonth (d.year + d.month / 12) (d.month % 12 + 1) :=
    daysInMonth_ge _ _ (by omega) (by omega)
  refine ⟨rfl, rfl, ?_, ?_, ?_⟩
  · refine ⟨?_, ?_, ?_, ?_⟩ <;>
      simp only [addMonthsCivil, CivilDateTime.ValidDate, hmm] <;> omega
  · simp only [addMonthsCivil, hmm]
    omega
  · simp only [addMonthsCivil, hmm]

/-- Witness for C1 at the concrete input 2026-01-31T17:00. -/
theorem nextDueDate_monthly_clamps_witness :
    (⟨2026, 1, 31, 17, 0⟩ : CivilDateTime).ValidDate ∧
    calculateNextDueDate ⟨2026, 1, 31, 17, 0⟩ (.pat .monthly) = .ok ⟨2026, 2, 28, 17, 0⟩ ∧
    ((⟨2026, 2, 28, 17, 0⟩ : CivilDateTime).hour = (⟨2026, 1, 31, 17, 0⟩ : CivilDateTime).hour ∧
     (⟨2026, 2, 28, 17, 0⟩ : CivilDateTime).minute = (⟨2026, 1, 31, 17, 0⟩ : CivilDateTime).minute ∧
     (⟨2026, 2, 28, 17, 0⟩ : CivilDateTime).ValidDate ∧
     (⟨2026, 2, 28, 17, 0⟩ : CivilDateTime).year * 12 + ((⟨2026, 2, 28, 17, 0⟩ : CivilDateTime).month - 1)
       = (⟨2026, 1, 31, 17, 0⟩ : CivilDateTime).year * 12
           + ((⟨2026, 1, 31, 17, 0⟩ : CivilDateTime).month - 1) + 1 ∧
     (⟨2026, 2, 28, 17, 0⟩ : CivilDateTime).day
       = min (⟨2026, 1, 31, 17, 0⟩ : CivilDateTime).day
           (daysInMonth (⟨2026, 2, 28, 17, 0⟩ : CivilDateTime).year
             (⟨2026, 2, 28, 17, 0⟩ : CivilDateTime).month)) :=
  ⟨by decide, rfl,
    nextDueDate_monthly_clamps.2.2 ⟨2026, 1, 31, 17, 0⟩ (by decide) ⟨2026, 2, 28, 17, 0⟩ rfl⟩

/-! ## Claim C7: invalid pattern input is a hard error -/

/-- C7: `calculateNextDueDate` fails with an error on every pattern input
outside {daily, weekly, monthly, yearly}: the null pattern and every
unrecognized string hit the `default:` branch and throw. -/
theorem calculateNextDueDate_invalid_pattern_errors :
    (∀ d : CivilDateTime, calculateNextDueDate d .nullInput
        = .error ("Invalid recurrence pattern: " ++ PatternInput.nullInput.render)) ∧
    (∀ (d : CivilDateTime) (s : String), calculateNextDueDate d (.unrecognized s)
        = .error ("Invalid recurrence pattern: " ++ (PatternInput.unrecognized s).render)) :=
  ⟨fun _ => rfl, fun _ _ => rfl⟩

/-! ## Claim C5: occurrence sequences -/

theorem occurrencesLoop_length (p : RecurrencePattern) :
    ∀ (k : Nat) (cur : CivilDateTime), (occurrencesLoop p k cur).length = k := by
  intro k
  induction k with
  | zero => intro cur; rfl
  | succ m ih => intro cur; simp [occurrencesLoop, ih]

theorem occurrencesLoop_get (p : RecurrencePattern) :
    ∀ (k i : Nat) (cur : CivilDateTime) (h : i + 1 < (cur :: occurrencesLoop p k cur).length),
      (cur :: occurrencesLoop p k cur).get ⟨i + 1, h⟩
        = nextDueDateTotal ((cur :: occurrencesLoop p k cur).get ⟨i, Nat.lt_of_succ_lt h⟩) p := by
  intro k
  induction k with
  | zero =>
    intro i cur h
    simp [occurrencesLoop] at h
  | succ m ih =>
    intro i cur h
    match i with
    | 0 => rfl
    | j + 1 => exact ih j (nextDueDateTotal cur p) (Nat.lt_of_succ_lt_succ h)

/-- C5 counterexample: with requested count 0 the returned sequence has
length 1, not 0 — the start date is always pushed before the loop runs. -/
theorem calculateNextOccurrences_count_zero :
    (calculateNextOccurrences ⟨2026, 1, 1, 9, 0⟩ .daily 0).length = 1 ∧ (1 : Nat) ≠ 0 :=
  ⟨rfl, by decide⟩

/-- C5 (amended): for every start date, valid pattern and requested count
n ≥ 1, `calculateNextOccurrences` returns a sequence of length exactly n,
whose first element is the start date, in which each subsequent element is
`calculateNextDueDate` of the previous one, and two calls on identical
inputs yield identical sequences. -/
theorem calculateNextOccurrences_spec (s : CivilDateTime) (p : RecurrencePattern)
    (n : Nat) (hn : 1 ≤ n) :
    (calculateNextOccurrences s p n).length = n ∧
    (calculateNextOccurrences s p n).head? = some s ∧
    (∀ (i : Nat) (h : i + 1 < (calculateNextOccurrences s p n).length),
      calculateNextDueDate ((calculateNextOccurrences s p n).get ⟨i, Nat.lt_of_succ_lt h⟩) (.pat p)
        = .ok ((calculateNextOccurrences s p n).get ⟨i + 1, h⟩)) ∧
    calculateNextOccurrences s p n = calculateNextOccurrences s p n := by
  refine ⟨?_, rfl, ?_, rfl⟩
  · simp only [calculateNextOccurrences, List.length_cons, occurrencesLoop_length]
    omega
  · intro i h
    have hstep := occurrencesLoop_get p (n - 1) i s h
    exact congrArg Except.ok hstep.symm

/-- Witness for C5 (amended) at count 3. -/
theorem calculateNextOccurrences_spec_witness :
    1 ≤ 3 ∧ (calculateNextOccurrences ⟨2026, 1, 31, 17, 0⟩ .daily 3).length = 3 :=
  ⟨by decide, (calculateNextOccurrences_spec ⟨2026, 1, 31, 17, 0⟩ .daily 3 (by decide)).1⟩

theorem passesReminderFilter_iff (now : Int) (t : RTodo) :
    passesReminderFilter now t = true ↔
      (t.completed = false ∧ ∃ r, t.reminder_minutes = some r ∧ r ≠ 0 ∧
        t.due_date - r * 60000 ≤ now ∧ now < t.due_date ∧
        ∀ l, t.last_notification_sent = some l → 5 * 60000 ≤ now - l) := by
  obtain ⟨tid, c, rm, dd, lns⟩ := t
  cases c <;> cases rm <;> cases lns <;>
    simp only [passesReminderFilter] <;>
    split_ifs <;> simp_all

theorem mem_checkReminders (now : Int) (todos : List RTodo) (e : ReminderEntry) :
    e ∈ checkReminders now todos ↔
      e.todo ∈ todos ∧ passesReminderFilter now e.todo = true ∧
      e.minutesUntilDue = jsRoundMinutes (e.todo.due_date - now) := by
  simp only [checkReminders, List.mem_map, List.mem_filter]
  constructor
  · rintro ⟨t, ⟨ht, hp⟩, rfl⟩
    exact ⟨ht, hp, rfl⟩
  · rintro ⟨ht, hp, hm⟩
    exact ⟨e.todo, ⟨ht, hp⟩, by cases e; simp_all⟩

/-! ## Claim C3: the reminder window is half-open -/

/-- C3: an entry is returned only if `reminderTime ≤ now < due_date`
(with `reminderTime = due_date − reminder_minutes`); in particular a todo
due at T with a 60-minute lead is included at `now = T − 60min` and
excluded at `now = T` and at `now = T − 61min`. -/
theorem reminderWindow_halfOpen :
    (∀ (now : Int) (todos : List RTodo) (e : ReminderEntry) (r : Int),
        e ∈ checkReminders now todos → e.todo.reminder_minutes = some r →
        e.todo.due_date - r * 60000 ≤ now ∧ now < e.todo.due_date) ∧
    (∀ dueT : Int,
        checkReminders (dueT - 60 * 60000) [⟨1, false, some 60, dueT, none⟩]
          = [⟨⟨1, false, some 60, dueT, none⟩, 60⟩] ∧
        checkReminders dueT [⟨1, false, some 60, dueT, none⟩] = [] ∧
        checkReminders (dueT - 61 * 60000) [⟨1, false, some 60, dueT, none⟩] = []) := by
  constructor
  · intro now todos e r he hr
    rw [mem_checkReminders] at he
    obtain ⟨-, hp, -⟩ := he
    rw [passesReminderFilter_iff] at hp
    obtain ⟨-, r', hr', -, hw1, hw2, -⟩ := hp
    rw [hr] at hr'
    injection hr' with h
    subst h
    exact ⟨hw1, hw2⟩
  · intro dueT
    have hp1 : passesReminderFilter (dueT - 3600000) ⟨1, false, some 60, dueT, none⟩ = true := by
      rw [passesReminderFilter_iff]
      refine ⟨rfl, 60, rfl, by norm_num, ?_, ?_, by simp⟩
      · show dueT - 60 * 60000 ≤ dueT - 3600000
        omega
      · show dueT - 3600000 < dueT
        omega
    have hp2 : passesReminderFilter dueT ⟨1, false, some 60, dueT, none⟩ = false := by
      rw [← Bool.not_eq_true, passesReminderFilter_iff]
      rintro ⟨-, r, -, -, -, hlt, -⟩
      have hlt' : dueT < dueT := hlt
      omega
    have hp3 : passesReminderFilter (dueT - 3660000) ⟨1, false, some 60, dueT, none⟩ = false := by
      rw [← Bool.not_eq_true, passesReminderFilter_iff]
      rintro ⟨-, r, hr, -, hw1, -, -⟩
      have hr' : (some 60 : Option Int) = some r := hr
      injection hr' with h
      subst h
      have hw1' : dueT - 60 * 60000 ≤ dueT - 3660000 := hw1
      omega
    have harith : dueT - (dueT - 3600000) = 3600000 := by omega
    have hjs : jsRoundMinutes 3600000 = 60 := by decide
    refine ⟨?_, ?_, ?_⟩
    · simp [checkReminders, hp1, harith, hjs]
    · simp [checkReminders, hp2]
    · simp [checkReminders, hp3]

/-- Witness for C3 part 1 at a concrete in-window todo. -/
theorem reminderWindow_halfOpen_witness :
    (⟨⟨7, false, some 30, 1200000, none⟩, 20⟩ : ReminderEntry)
        ∈ checkReminders 0 [⟨7, false, some 30, 1200000, none⟩] ∧
    (⟨⟨7, false, some 30, 1200000, none⟩, 20⟩ : ReminderEntry).todo.reminder_minutes = some 30 ∧
    ((⟨⟨7, false, some 30, 1200000, none⟩, 20⟩ : ReminderEntry).todo.due_date - 30 * 60000 ≤ 0 ∧
      (0 : Int) < (⟨⟨7, false, some 30, 1200000, none⟩, 20⟩ : ReminderEntry).todo.due_date) :=
  ⟨by decide, rfl,
    reminderWindow_halfOpen.1 0 [⟨7, false, some 30, 1200000, none⟩]
      ⟨⟨7, false, some 30, 1200000, none⟩, 20⟩ 30 (by decide) rfl⟩

/-! ## Claim C4: 5-minute de-duplication -/

/-- C4: a todo notified less than 5 minutes ago is skipped; a todo with no
prior notification passes the de-duplication check (and is included when
the other conditions hold); a todo becomes eligible again once at least
5 minutes have elapsed since its last notification. -/
theorem reminderDedup_spec :
    (∀ (now : Int) (t : RTodo) (l : Int),
        t.last_notification_sent = some l → now - l < 5 * 60000 →
        passesReminderFilter now t = false) ∧
    (∀ (now : Int) (t : RTodo) (r : Int),
        t.last_notification_sent = none → t.completed = false →
        t.reminder_minutes = some r → r ≠ 0 →
        t.due_date - r * 60000 ≤ now → now < t.due_date →
        passesReminderFilter now t = true) ∧
    (∀ (now : Int) (t : RTodo) (r l : Int),
        t.last_notification_sent = some l → 5 * 60000 ≤ now - l →
        t.completed = false → t.reminder_minutes = some r → r ≠ 0 →
        t.due_date - r * 60000 ≤ now → now < t.due_date →
        passesReminderFilter now t = true) := by
  refine ⟨?_, ?_, ?_⟩
  · intro now t l hl hlt
    rw [← Bool.not_eq_true, passesReminderFilter_iff]
    rintro ⟨-, r, -, -, -, -, hded⟩
    have := hded l hl
    omega
  · intro now t r hnone hc hr hne hw1 hw2
    rw [passesReminderFilter_iff]
    refine ⟨hc, r, hr, hne, hw1, hw2, ?_⟩
    intro l hl
    rw [hnone] at hl
    cases hl
  · intro now t r l hsome helapsed hc hr hne hw1 hw2
    rw [passesReminderFilter_iff]
    refine ⟨hc, r, hr, hne, hw1, hw2, ?_⟩
    intro l' hl'
    rw [hsome] at hl'
    injection hl' with h
    omega

/-- Witness for C4 part 1: last notification 100 seconds ago. -/
theorem reminderDedup_spec_witness :
    (⟨3, false, some 60, 3600000, some (-100000)⟩ : RTodo).last_notification_sent
        = some (-100000) ∧
    (0 : Int) - (-100000) < 5 * 60000 ∧
    passesReminderFilter 0 ⟨3, false, some 60, 3600000, some (-100000)⟩ = false :=
  ⟨rfl, by decide,
    reminderDedup_spec.1 0 ⟨3, false, some 60, 3600000, some (-100000)⟩ (-100000) rfl (by decide)⟩

/-! ## Claim C8: completed todos are never returned -/

/-- C8: for every collection of todos and every evaluation time, no entry
returned by the evaluator has a completed todo. -/
theorem checkReminders_excludes_completed (now : Int) (todos : List RTodo)
    (e : ReminderEntry) (he : e ∈ checkReminders now todos) :
    e.todo.completed = false := by
  rw [mem_checkReminders] at he
  exact ((passesReminderFilter_iff now e.todo).mp he.2.1).1

/-- Witness for C8 at a concrete returned entry. -/
theorem checkReminders_excludes_completed_witness :
    (⟨⟨4, false, some 15, 600000, none⟩, 10⟩ : ReminderEntry)
        ∈ checkReminders 0 [⟨4, true, some 15, 600000, none⟩, ⟨4, false, some 15, 600000, none⟩] ∧
    (⟨⟨4, false, some 15, 600000, none⟩, 10⟩ : ReminderEntry).todo.completed = false :=
  ⟨by decide,
    checkReminders_excludes_completed 0
      [⟨4, true, some 15, 600000, none⟩, ⟨4, false, some 15, 600000, none⟩]
      ⟨⟨4, false, some 15, 600000, none⟩, 10⟩ (by decide)⟩

/-! ## Claim C10: bounds on minutesUntilDue -/

/-- C10: every returned entry satisfies
`0 ≤ minutesUntilDue ≤ reminder_minutes`. -/
theorem checkReminders_minutesUntilDue_bounds (now : Int) (todos : List RTodo)
    (e : ReminderEntry) (r : Int) (he : e ∈ checkReminders now todos)
    (hr : e.todo.reminder_minutes = some r) :
    0 ≤ e.minutesUntilDue ∧ e.minutesUntilDue ≤ r := by
  rw [mem_checkReminders] at he
  obtain ⟨-, hp, hm⟩ := he
  rw [passesReminderFilter_iff] at hp
  obtain ⟨-, r', hr', -, hw1, hw2, -⟩ := hp
  rw [hr] at hr'
  injection hr' with h
  subst h
  rw [hm, jsRoundMinutes, Int.fdiv_eq_ediv _ (by norm_num)]
  constructor <;> omega

/-- Witness for C10: a todo 59 minutes and 30 seconds from due with a
60-minute lead yields minutesUntilDue = 60 (round up), within bounds. -/
theorem checkReminders_minutesUntilDue_bounds_witness :
    (⟨⟨9, false, some 60, 3570000, none⟩, 60⟩ : ReminderEntry)
        ∈ checkReminders 0 [⟨9, false, some 60, 3570000, none⟩] ∧
    (⟨⟨9, false, some 60, 3570000, none⟩, 60⟩ : ReminderEntry).todo.reminder_minutes = some 60 ∧
    (0 ≤ (⟨⟨9, false, some 60, 3570000, none⟩, 60⟩ : ReminderEntry).minutesUntilDue ∧
      (⟨⟨9, false, some 60, 3570000, none⟩, 60⟩ : ReminderEntry).minutesUntilDue ≤ 60) :=
  ⟨by decide, rfl,
    checkReminders_minutesUntilDue_bounds 0 [⟨9, false, some 60, 3570000, none⟩]
      ⟨⟨9, false, some 60, 3570000, none⟩, 60⟩ 60 (by decide) rfl⟩

theorem copySubtasksFold_spec (nid : Nat) :
    ∀ (L : List DSubtask) (st : DBState),
      ∃ rest,
        (copySubtasksFold nid L st).subtasks = st.subtasks ++ rest ∧
        (copySubtasksFold nid L st).todos = st.todos ∧
        (copySubtasksFold nid L st).todo_tags = st.todo_tags ∧
        ∀ sub ∈ L, ∃ x ∈ rest, x.todo_id = nid ∧ x.title = trimString sub.title ∧
          x.position = sub.position ∧ x.completed = false := by
  intro L
  induction L with
  | nil =>
    intro st
    exact ⟨[], by simp [copySubtasksFold], rfl, rfl, by simp⟩
  | cons a L ih =>
    intro st
    obtain ⟨rest', h1, h2, h3, h4⟩ := ih ((subtaskDB_create st nid a.title a.position).1)
    refine ⟨{ id := st.nextSubtaskId, todo_id := nid, title := trimString a.title,
              completed := false, position := a.position } :: rest', ?_, ?_, ?_, ?_⟩
    · show (copySubtasksFold nid L ((subtaskDB_create st nid a.title a.position).1)).subtasks = _
      rw [h1]
      simp [subtaskDB_create]
    · show (copySubtasksFold nid L ((subtaskDB_create st nid a.title a.position).1)).todos = _
      rw [h2]
      rfl
    · show (copySubtasksFold nid L ((subtaskDB_create st nid a.title a.position).1)).todo_tags = _
      rw [h3]
      rfl
    · intro sub hsub
      rcases List.mem_cons.mp hsub with rfl | hsub
      · exact ⟨_, List.mem_cons_self _ _, rfl, rfl, rfl, rfl⟩
      · obtain ⟨x, hx, hf1, hf2, hf3, hf4⟩ := h4 sub hsub
        exact ⟨x, List.mem_cons_of_mem _ hx, hf1, hf2, hf3, hf4⟩

theorem copySubtasksFold_todos (nid : Nat) :
    ∀ (L : List DSubtask) (st : DBState), (copySubtasksFold nid L st).todos = st.todos := by
  intro L
  induction L with
  | nil => intro st; rfl
  | cons a L ih => intro st; exact (ih ((subtaskDB_create st nid a.title a.position).1)).trans rfl

theorem mkCreatedTodo_reminder (s : DBState) (u : Nat) (ti : String) (d : CivilDateTime)
    (pr : Priority) (rec : Option RecurrencePattern) (rem : Option Int)
    (hrem : rem ≠ some 0) :
    (mkCreatedTodo s u ti d pr rec rem).reminder_minutes = rem := by
  cases rem with
  | none => rfl
  | some r =>
    have hr0 : ¬(r = 0) := by
      intro h
      subst h
      exact hrem rfl
    simp [mkCreatedTodo, hr0]

/-! ## Claim C2: recurrence advancement copies state, not reminder history -/

/-- C2: completing a recurring todo spawns exactly one new todo with the
same title, priority, recurrence pattern and reminder lead time, a due
date advanced by `nextDueDate`, fresh (null) notification state, all tag
associations copied, and all subtasks copied (title and position) reset
to incomplete; the original rows are left unchanged. -/
theorem createRecurringInstance_spec
    (s : DBState) (parent : DTodo) (p : RecurrencePattern)
    (hp : parent.recurrence_pattern = some p)
    (htitle : trimString parent.title = parent.title)
    (hrem : parent.reminder_minutes ≠ some 0)
    (hsubt : ∀ sub ∈ s.subtasks, sub.todo_id = parent.id → trimString sub.title = sub.title) :
    ∃ s' newTodo, createRecurringInstance s parent = .ok (s', newTodo) ∧
      newTodo.title = parent.title ∧
      newTodo.priority = parent.priority ∧
      newTodo.recurrence_pattern = some p ∧
      newTodo.reminder_minutes = parent.reminder_minutes ∧
      newTodo.due_date = nextDueDateTotal parent.due_date p ∧
      newTodo.last_notification_sent = none ∧
      newTodo.completed = false ∧
      s'.todos = s.todos ++ [newTodo] ∧
      (∀ tg, (parent.id, tg) ∈ s.todo_tags → (newTodo.id, tg) ∈ s'.todo_tags) ∧
      (∀ x ∈ s.todo_tags, x ∈ s'.todo_tags) ∧
      (∃ rest, s'.subtasks = s.subtasks ++ rest ∧
        ∀ sub ∈ s.subtasks, sub.todo_id = parent.id →
          ∃ x ∈ rest, x.todo_id = newTodo.id ∧ x.title = sub.title ∧
            x.position = sub.position ∧ x.completed = false) := by
  let ntdef : DTodo := mkCreatedTodo s parent.user_id parent.title
    (nextDueDateTotal parent.due_date p) parent.priority (some p) parent.reminder_minutes
  let newTagsdef : List (Nat × Nat) :=
    (s.todo_tags.filter (fun tt => tt.1 == parent.id)).map (fun tt => (s.nextTodoId, tt.2))
  let s2def : DBState :=
    { todos := s.todos ++ [ntdef]
      subtasks := s.subtasks
      todo_tags := s.todo_tags ++ newTagsdef
      nextTodoId := s.nextTodoId + 1
      nextSubtaskId := s.nextSubtaskId }
  have hcore1 : (createRecurringInstanceCore s parent p).1
      = copySubtasksFold s.nextTodoId (subtaskDB_findByTodo s2def parent.id) s2def := rfl
  have hcore2 : (createRecurringInstanceCore s parent p).2 = ntdef := rfl
  obtain ⟨rest, hf1, hf2, hf3, hf4⟩ :=
    copySubtasksFold_spec s.nextTodoId (subtaskDB_findByTodo s2def parent.id) s2def
  refine ⟨(createRecurringInstanceCore s parent p).1,
          (createRecurringInstanceCore s parent p).2, ?_, ?_, rfl, rfl, ?_, rfl, rfl, rfl,
          ?_, ?_, ?_, ?_⟩
  · unfold createRecurringInstance
    rw [hp]
  · exact htitle
  · exact mkCreatedTodo_reminder s parent.user_id parent.title
      (nextDueDateTotal parent.due_date p) parent.priority (some p)
      parent.reminder_minutes hrem
  · rw [hcore1, hf2, hcore2]
  · intro tg htg
    rw [hcore1, hf3]
    show (s.nextTodoId, tg) ∈ s.todo_tags ++ newTagsdef
    refine List.mem_append_right _ ?_
    refine List.mem_map.mpr ⟨(parent.id, tg), List.mem_filter.mpr ⟨htg, by simp⟩, rfl⟩
  · intro x hx
    rw [hcore1, hf3]
    show x ∈ s.todo_tags ++ newTagsdef
    exact List.mem_append_left _ hx
  · refine ⟨rest, ?_, ?_⟩
    · rw [hcore1, hf1]
    · intro sub hmem hid
      have hin : sub ∈ subtaskDB_findByTodo s2def parent.id := by
        unfold subtaskDB_findByTodo
        rw [List.mem_mergeSort]
        exact List.mem_filter.mpr ⟨hmem, by simp [hid]⟩
      obtain ⟨x, hx, hxf1, hxf2, hxf3, hxf4⟩ := hf4 sub hin
      exact ⟨x, hx, hxf1, by rw [hxf2, hsubt sub hmem hid], hxf3, hxf4⟩

/-- Witness for C2: the spec's example — a recurring monthly todo with
2 tags and 3 subtasks (1 completed) is advanced successfully. -/
theorem createRecurringInstance_spec_witness :
    (⟨1, 1, "Report", ⟨2026, 1, 31, 17, 0⟩, .medium, false, none, some .monthly,
        some 60, none⟩ : DTodo).recurrence_pattern = some .monthly ∧
    trimString ("Report") = "Report" ∧
    (some 60 : Option Int) ≠ some 0 ∧
    (∀ sub ∈ (⟨[⟨1, 1, "Report", ⟨2026, 1, 31, 17, 0⟩, .medium, false, none, some .monthly,
          some 60, none⟩],
        [⟨1, 1, "alpha", true, 0⟩, ⟨2, 1, "beta", false, 1⟩, ⟨3, 1, "gamma", false, 2⟩],
        [(1, 10), (1, 20)], 2, 4⟩ : DBState).subtasks,
      sub.todo_id = 1 → trimString sub.title = sub.title) ∧
    (createRecurringInstance
        ⟨[⟨1, 1, "Report", ⟨2026, 1, 31, 17, 0⟩, .medium, false, none, some .monthly,
            some 60, none⟩],
          [⟨1, 1, "alpha", true, 0⟩, ⟨2, 1, "beta", false, 1⟩, ⟨3, 1, "gamma", false, 2⟩],
          [(1, 10), (1, 20)], 2, 4⟩
        ⟨1, 1, "Report", ⟨2026, 1, 31, 17, 0⟩, .medium, false, none, some .monthly,
          some 60, none⟩).isOk = true := by
  refine ⟨rfl, by decide, by decide, by decide, ?_⟩
  obtain ⟨s', nt, heq, -⟩ := createRecurringInstance_spec
    ⟨[⟨1, 1, "Report", ⟨2026, 1, 31, 17, 0⟩, .medium, false, none, some .monthly,
        some 60, none⟩],
      [⟨1, 1, "alpha", true, 0⟩, ⟨2, 1, "beta", false, 1⟩, ⟨3, 1, "gamma", false, 2⟩],
      [(1, 10), (1, 20)], 2, 4⟩
    ⟨1, 1, "Report", ⟨2026, 1, 31, 17, 0⟩, .medium, false, none, some .monthly,
      some 60, none⟩
    .monthly rfl (by decide) (by decide) (by decide)
  rw [heq]
  rfl

/-! ## Claim C6: spawning is exactly the false→true transition on a recurring todo -/

theorem todoDB_updateCompletion_length (s : DBState) (id : Nat) (c : Bool)
    (ca : Option CivilDateTime) :
    (todoDB_updateCompletion s id c ca).todos.length = s.todos.length := by
  simp [todoDB_updateCompletion]

theorem todoDB_updateCompletion_ids (s : DBState) (id : Nat) (c : Bool)
    (ca : Option CivilDateTime) :
    ∀ t ∈ s.todos, ∃ t' ∈ (todoDB_updateCompletion s id c ca).todos, t'.id = t.id := by
  intro t ht
  refine ⟨if t.id = id then { t with completed := c, completed_at := ca } else t, ?_, ?_⟩
  · exact List.mem_map.mpr ⟨t, ht, rfl⟩
  · split <;> rfl

theorem createRecurringInstanceCore_todos (s : DBState) (parent : DTodo)
    (p : RecurrencePattern) :
    (createRecurringInstanceCore s parent p).1.todos
      = s.todos ++ [(createRecurringInstanceCore s parent p).2] := by
  simp only [createRecurringInstanceCore]
  rw [copySubtasksFold_todos]
  rfl

/-- C6: a completion-toggle update spawns a new todo iff it is a
false→true transition on a todo with a non-null recurrence pattern
(the todo count grows by exactly one in that case and is unchanged in
every other case), and no update ever deletes an existing todo. -/
theorem putUpdateCompletion_spawn_iff (s : DBState) (todo : DTodo) (b : Bool)
    (now : CivilDateTime) :
    ((putUpdateCompletion s todo b now).todos.length
        = s.todos.length
          + (if b = true ∧ todo.completed = false ∧ todo.recurrence_pattern.isSome
             then 1 else 0)) ∧
    (∀ t ∈ s.todos, ∃ t' ∈ (putUpdateCompletion s todo b now).todos, t'.id = t.id) := by
  constructor
  · simp only [putUpdateCompletion]
    rw [todoDB_updateCompletion_length]
    rcases hrec : todo.recurrence_pattern with _ | p <;>
      cases b <;> cases hc : todo.completed <;>
        simp [hrec, hc, createRecurringInstanceCore_todos]
  · intro t ht
    simp only [putUpdateCompletion]
    apply todoDB_updateCompletion_ids
    by_cases hcond : (b && !todo.completed) = true
    · rw [if_pos hcond]
      rcases hrec : todo.recurrence_pattern with _ | p
      · exact ht
      · show t ∈ (createRecurringInstanceCore s todo p).1.todos
        rw [createRecurringInstanceCore_todos]
        exact List.mem_append_left _ ht
    · rw [if_neg hcond]
      exact ht

/-- Witness for C6: un-completing a completed recurring todo leaves the
todo count unchanged and preserves the existing todo. -/
theorem putUpdateCompletion_spawn_iff_witness :
    ((putUpdateCompletion
        ⟨[⟨5, 1, "Weekly", ⟨2026, 2, 10, 14, 0⟩, .high, true, some ⟨2026, 2, 9, 9, 0⟩,
            some .weekly, none, none⟩], [], [], 6, 1⟩
        ⟨5, 1, "Weekly", ⟨2026, 2, 10, 14, 0⟩, .high, true, some ⟨2026, 2, 9, 9, 0⟩,
          some .weekly, none, none⟩
        false ⟨2026, 2, 9, 10, 0⟩).todos.length
      = 1 + (if false = true ∧ true = false ∧ (some RecurrencePattern.weekly).isSome
             then 1 else 0)) ∧
    (⟨5, 1, "Weekly", ⟨2026, 2, 10, 14, 0⟩, .high, true, some ⟨2026, 2, 9, 9, 0⟩,
        some .weekly, none, none⟩ : DTodo)
      ∈ (⟨[⟨5, 1, "Weekly", ⟨2026, 2, 10, 14, 0⟩, .high, true, some ⟨2026, 2, 9, 9, 0⟩,
            some .weekly, none, none⟩], [], [], 6, 1⟩ : DBState).todos :=
  ⟨((putUpdateCompletion_spawn_iff
      ⟨[⟨5, 1, "Weekly", ⟨2026, 2, 10, 14, 0⟩, .high, true, some ⟨2026, 2, 9, 9, 0⟩,
          some .weekly, none, none⟩], [], [], 6, 1⟩
      ⟨5, 1, "Weekly", ⟨2026, 2, 10, 14, 0⟩, .high, true, some ⟨2026, 2, 9, 9, 0⟩,
        some .weekly, none, none⟩
      false ⟨2026, 2, 9, 10, 0⟩).1), by decide⟩

/-! ## Claim C9: reminder lead-time validation at creation -/

/-- C9 counterexample: the creation route accepts `reminder_minutes = 45`,
a value outside the enumerated set, and stores it on the created todo;
the (uncalled) `validateReminderMinutes` helper would have mapped it to
null. -/
theorem postCreateTodo_accepts_45 :
    ((postCreateTodo ⟨[], [], [], 1, 1⟩ ⟨2026, 1, 1, 0, 0⟩ 1 ("Task") ⟨2026, 1, 2, 0, 0⟩
        none none (some 45)).toOption.map (fun r => r.2.reminder_minutes))
      = some (some 45) ∧
    reminderOptionValues.contains 45 = false ∧
    validateReminderMinutes (some 45) = none :=
  ⟨by decide, by decide, by decide⟩

/-- C9 (amended): at todo creation only positivity of `reminder_minutes`
is enforced — a present value is accepted iff it is positive, and an
accepted value is stored unchanged on the created todo even when it lies
outside the enumerated set; the standalone `validateReminderMinutes`
helper keeps a value iff it belongs to the set, but is not part of the
creation path. -/
theorem postReminderValidation_spec (s : DBState) (now : CivilDateTime) (u : Nat)
    (title : String) (due : CivilDateTime) (pr : Option Priority)
    (rec : Option RecurrencePattern) (r : Int)
    (htitle1 : (trimString title).length ≠ 0)
    (htitle2 : (trimString title).length ≤ 500)
    (hdue : isPastDate due now = false) :
    ((postCreateTodo s now u title due pr rec (some r)).isOk = true ↔ 0 < r) ∧
    (0 < r → ∃ s' t, postCreateTodo s now u title due pr rec (some r) = .ok (s', t) ∧
      t.reminder_minutes = some r) ∧
    (validateReminderMinutes (some r) = some r ↔ reminderOptionValues.contains r = true) := by
  have hunfold : postCreateTodo s now u title due pr rec (some r)
      = if postReminderValidationOk (some r) = false then
          .error ("Reminder minutes must be a positive number")
        else
          .ok (todoDB_create s u title due (pr.getD .medium) rec (some r)) := by
    unfold postCreateTodo
    rw [if_neg htitle1, if_neg (by omega), if_neg (by simp [hdue])]
  refine ⟨?_, ?_, ?_⟩
  · rw [hunfold]
    by_cases hr : 0 < r
    · simp [postReminderValidationOk, hr]
      rfl
    · simp [postReminderValidationOk, hr]
      rfl
  · intro hr
    have hval : postReminderValidationOk (some r) = true := by
      simp [postReminderValidationOk, hr]
    refine ⟨(todoDB_create s u title due (pr.getD .medium) rec (some r)).1,
            (todoDB_create s u title due (pr.getD .medium) rec (some r)).2, ?_, ?_⟩
    · rw [hunfold, if_neg (by simp [hval])]
    · exact mkCreatedTodo_reminder s u title due (pr.getD .medium) rec (some r)
        (by intro h; injection h with h'; omega)
  · unfold validateReminderMinutes
    by_cases hc : reminderOptionValues.contains r = true
    · simp [hc]
    · simp [hc]

/-- Witness for C9 (amended) at reminder value 45. -/
theorem postReminderValidation_spec_witness :
    (trimString ("Task")).length ≠ 0 ∧
    (trimString ("Task")).length ≤ 500 ∧
    isPastDate ⟨2026, 1, 2, 0, 0⟩ ⟨2026, 1, 1, 0, 0⟩ = false ∧
    ((postCreateTodo ⟨[], [], [], 1, 1⟩ ⟨2026, 1, 1, 0, 0⟩ 1 ("Task") ⟨2026, 1, 2, 0, 0⟩
        none none (some 45)).isOk = true ↔ (0 : Int) < 45) :=
  ⟨by decide, by decide, by decide,
    (postReminderValidation_spec ⟨[], [], [], 1, 1⟩ ⟨2026, 1, 1, 0, 0⟩ 1 ("Task")
      ⟨2026, 1, 2, 0, 0⟩ none none 45 (by decide) (by decide) (by decide)).1⟩

end ToDoApp
